import Mathlib

/-!
# BackendGlfw: window lifecycle, render loop and frame protocol

A shallow embedding of `profiler/src/BackendGlfw.cpp`.

The file talks to three external libraries (GLFW, the ImGui bridges, OpenGL) and to two
injected collaborators (the redraw callback and the main-thread task queue).  None of them
is part of the file, so they are taken as parameters:

* `σ` is the state of everything outside the file (window system, GL context, GUI library,
  task queue, clock);
* `ω` is the type of window handles (`GLFWwindow*`), `μ` of monitor handles, `φ` of `float`s;
* `Platform σ ω μ φ` gives the effect of every external call on `σ` and the answer of every
  query.

The code of the file is then written once, for every platform, by explicit state passing.
Every function returns, next to the new state, the list of effectful calls made while it ran,
in program order: its own calls and the calls the window system makes back into the file (the
refresh handler of line 64, run from inside `glfwPollEvents`).  Preprocessor conditionals are
branches on a `BuildConfig`.
-/

namespace BackendGlfw

/-! ## Vocabulary of external calls -/

/-- Window hints given to `glfwWindowHint` by the constructor. -/
inductive Hint
  | GLFW_ALPHA_BITS
  | GLFW_VISIBLE
  | GLFW_CONTEXT_VERSION_MAJOR
  | GLFW_CONTEXT_VERSION_MINOR
  | GLFW_OPENGL_PROFILE
  | GLFW_OPENGL_FORWARD_COMPAT
  deriving DecidableEq, Repr

/-- Window attributes read with `glfwGetWindowAttrib`. -/
inductive Attrib
  | GLFW_MAXIMIZED
  | GLFW_ICONIFIED
  | GLFW_FOCUSED
  deriving DecidableEq, Repr

/-- Value of the macro `GLFW_OPENGL_CORE_PROFILE`. -/
def GLFW_OPENGL_CORE_PROFILE : Int := 0x00032001

/-- Value of the macro `GL_TRUE`. -/
def GL_TRUE : Int := 1

/-- Value of the macro `GL_COLOR_BUFFER_BIT`. -/
def GL_COLOR_BUFFER_BIT : Int := 0x00004000

/-- The effectful calls the file makes, with their arguments.  Queries (`glfwGetWindowAttrib`,
`glfwWindowShouldClose`, `glfwGetWindowPos`, ...) change nothing and are not listed. -/
inductive Call (ω : Type)
  | glfwSetErrorCallback
  | glfwInit
  | glfwWindowHint (hint : Hint) (value : Int)
  | glfwCreateWindow (w h : Int) (title : String)
  | glfwSetWindowPos (win : ω) (x y : Int)
  | glfwMaximizeWindow (win : ω)
  | glfwRestoreWindow (win : ω)
  | glfwMakeContextCurrent (win : Option ω)
  | glfwSwapInterval (interval : Int)
  | glfwSetWindowRefreshCallback (win : ω)
  | ImGui_ImplGlfw_InitForOpenGL (win : ω) (install_callbacks : Bool)
  | ImGui_ImplOpenGL3_Init (glsl_version : String)
  | ImGui_ImplOpenGL3_Shutdown
  | ImGui_ImplGlfw_Shutdown
  | glfwDestroyWindow (win : ω)
  | glfwTerminate
  | glfwPollEvents
  | sleep_for (milliseconds : Nat)
  | s_redraw
  | RunQueue_Run
  | ImGui_ImplOpenGL3_NewFrame
  | ImGui_ImplGlfw_NewFrame
  | ImGui_Render
  | glViewport (x y w h : Int)
  | glClearColor (r g b a : Int)
  | glClear (mask : Int)
  | ImGui_ImplOpenGL3_RenderDrawData
  | ImGui_UpdatePlatformWindows
  | ImGui_RenderPlatformWindowsDefault
  | glfwSwapBuffers (win : ω)
  deriving DecidableEq, Repr

/-- The external world as the file sees it.  `exec c` is the effect of the library call `c`
(`Call.s_redraw` and `Call.RunQueue_Run` are the two injected collaborators; their effect is
given by the injected values, not by `exec`; `glfwInit` and `glfwCreateWindow` return a result
and have fields of their own).

The window system calls back into the file: while events are polled it delivers refresh
notifications to the handler registered at line 64.  `refreshNotifications s` is the number
of notifications delivered during a `glfwPollEvents` that starts in state `s`; for that call
`exec` is the event processing up to the first notification (or to the end), and
`resumeEvents` the event processing that follows each notification once the handler has
returned.  No other call of the file processes events.

The remaining fields are the queries. -/
structure Platform (σ ω μ φ : Type) where
  glfwInit : σ → Bool × σ
  glfwCreateWindow : Int → Int → String → σ → Option ω × σ
  exec : Call ω → σ → σ
  refreshNotifications : σ → Nat
  resumeEvents : σ → σ
  glfwWindowShouldClose : ω → σ → Bool
  glfwGetWindowAttrib : ω → Attrib → σ → Bool
  glfwGetWindowPos : ω → σ → Int × Int
  glfwGetWindowSize : ω → σ → Int × Int
  glfwGetFramebufferSize : ω → σ → Int × Int
  glfwGetWindowMonitor : ω → σ → Option μ
  glfwGetPrimaryMonitor : σ → Option μ
  glfwGetMonitorContentScale : μ → σ → φ × φ
  glfwGetCurrentContext : σ → Option ω
  viewportsEnable : σ → Bool

/-- The file-static variables (lines 29-31) of a constructed Backend: the window handle is
not null and has the refresh handler of line 64 registered, the callback slot holds a
callable, the queue pointer is set.  The redraw callback and the queue's `Run` are arbitrary
operations on the outside world. -/
structure Live (σ ω : Type) where
  s_window : ω
  s_redraw : σ → σ
  s_mainThreadTasks : σ → σ

variable {σ ω μ φ : Type}

/-! ## Backend::Run (lines 99-116) -/

/-- Make one library call on a state paired with the calls made so far: apply its effect
and record it. -/
def perform (G : Platform σ ω μ φ) (c : Call ω) (p : σ × List (Call ω)) : σ × List (Call ω) :=
  (G.exec c p.1, p.2 ++ [c])

/-- Invoke an injected collaborator `run`, recorded as the call `c`. -/
def invoke (c : Call ω) (run : σ → σ) (p : σ × List (Call ω)) : σ × List (Call ω) :=
  (run p.1, p.2 ++ [c])

/-- The handler registered at line 64, `[]( GLFWwindow* ) { s_redraw(); }`, as it runs on a
constructed Backend: it invokes the callback the slot holds. -/
def Live.refreshCallback (L : Live σ ω) (p : σ × List (Call ω)) : σ × List (Call ω) :=
  invoke .s_redraw L.s_redraw p

/-- Delivery of `n` refresh notifications inside `glfwPollEvents`: each runs the handler of
line 64 synchronously, then event processing resumes. -/
def deliver (G : Platform σ ω μ φ) (L : Live σ ω) :
    Nat → σ × List (Call ω) → σ × List (Call ω)
  | 0, p => p
  | n + 1, p =>
    let q := L.refreshCallback p
    deliver G L n (G.resumeEvents q.1, q.2)

/-- The call `glfwPollEvents()` of line 103 with the calls the window system makes back into
the file while it runs. -/
def pollEvents (G : Platform σ ω μ φ) (L : Live σ ω) (p : σ × List (Call ω)) :
    σ × List (Call ω) :=
  deliver G L (G.refreshNotifications p.1) (perform G .glfwPollEvents p)

/-- One pass through the body of the `while` loop of `Backend::Run` (lines 103-114).  Both the
`continue` of the iconified branch and the end of the body lead back to the loop head. -/
def iteration (G : Platform σ ω μ φ) (L : Live σ ω) (s : σ) : σ × List (Call ω) :=
  let p1 := pollEvents G L (s, [])
  if G.glfwGetWindowAttrib L.s_window .GLFW_ICONIFIED p1.1 then
    perform G (.sleep_for 50) p1
  else
    let p2 := invoke .s_redraw L.s_redraw p1
    let p3 := if !G.glfwGetWindowAttrib L.s_window .GLFW_FOCUSED p2.1
      then perform G (.sleep_for 50) p2 else p2
    invoke .RunQueue_Run L.s_mainThreadTasks p3

/-- The loop of `Backend::Run`: `while( !glfwWindowShouldClose( s_window ) ) body`.  The loop
need not terminate, so it is run with fuel: `none` means the fuel ran out before the loop was
left, `some (s, calls)` that `Run` returned in state `s` having made `calls`. -/
def Backend.Run (G : Platform σ ω μ φ) (L : Live σ ω) : Nat → σ → Option (σ × List (Call ω))
  | 0, _ => none
  | fuel + 1, s =>
    if G.glfwWindowShouldClose L.s_window s then some (s, [])
    else
      let r := iteration G L s
      (Backend.Run G L fuel r.1).map (fun out => (out.1, r.2 ++ out.2))

/-! ## Data members and file statics -/

/-- Preprocessor configuration the file is compiled under. -/
structure BuildConfig where
  /-- Whether `DISPLAY_SERVER_WAYLAND` is defined (line 43). -/
  DISPLAY_SERVER_WAYLAND : Bool
  /-- Value of `__APPLE__` as a condition (line 51). -/
  APPLE : Bool
  /-- Whether the GLFW header defines the macro `GLFW_MAXIMIZED` (lines 58 and 75).  GLFW
  introduced it in release 3.2 together with `glfwSetWindowIcon`, which line 158 calls
  outside any conditional: every header the file compiles against defines it. -/
  GLFW_MAXIMIZED : Bool
  GLFW_VERSION_MAJOR : Nat
  GLFW_VERSION_MINOR : Nat
  deriving DecidableEq, Repr

/-- Modelled from the spec: `WindowPosition` (the type of `m_winPos`) is declared outside the
sources at hand.  Its shape is the spec's WindowGeometry, with the field names the file uses:
position, size and the maximize flag, which the file only tests and assigns as a truth value. -/
structure WindowPosition where
  x : Int
  y : Int
  w : Int
  h : Int
  maximize : Bool
  deriving DecidableEq, Repr

/-- Data members of `Backend` used by the file: the persisted geometry and the frame
dimensions. -/
structure Backend where
  m_winPos : WindowPosition
  m_w : Int
  m_h : Int
  deriving DecidableEq, Repr

/-- The file-static variables (lines 29-31) at an arbitrary program point: a null window
pointer, an empty `std::function` and a null queue pointer are `none`. -/
structure Statics (σ ω : Type) where
  s_window : Option ω
  s_redraw : Option (σ → σ)
  s_mainThreadTasks : Option (σ → σ)

/-- The statics at process start: zero-initialised pointers, default-constructed function. -/
def Statics.initial : Statics σ ω := ⟨none, none, none⟩

/-- Program state while the constructor runs: statics, outside world, calls made so far. -/
structure Frame (σ ω : Type) where
  statics : Statics σ ω
  world : σ
  calls : List (Call ω)

/-- Make one library call: apply its effect and record it. -/
def Frame.call (G : Platform σ ω μ φ) (c : Call ω) (f : Frame σ ω) : Frame σ ω :=
  { f with world := G.exec c f.world, calls := f.calls ++ [c] }

/-- Make library calls one after the other. -/
def Frame.callAll (G : Platform σ ω μ φ) (cs : List (Call ω)) (f : Frame σ ω) : Frame σ ω :=
  cs.foldl (fun acc c => acc.call G c) f

/-! ## Backend::Backend (lines 39-71) -/

/-- The `glfwWindowHint` calls of lines 43-53. -/
def windowHints (cfg : BuildConfig) : List (Call ω) :=
  (if cfg.DISPLAY_SERVER_WAYLAND then [Call.glfwWindowHint .GLFW_ALPHA_BITS 0]
   else [Call.glfwWindowHint .GLFW_VISIBLE 0]) ++
  [Call.glfwWindowHint .GLFW_CONTEXT_VERSION_MAJOR 3,
   Call.glfwWindowHint .GLFW_CONTEXT_VERSION_MINOR 2,
   Call.glfwWindowHint .GLFW_OPENGL_PROFILE GLFW_OPENGL_CORE_PROFILE] ++
  (if cfg.APPLE then [Call.glfwWindowHint .GLFW_OPENGL_FORWARD_COMPAT GL_TRUE] else [])

/-- How the first part of the constructor ends: `exit( status )` was called, or the window
exists. -/
inductive Opened (σ ω : Type)
  | exited (status : Int) (f : Frame σ ω)
  | window (win : ω) (f : Frame σ ω)

/-- Lines 41-55 of the constructor: library initialisation, hints, window creation, with
the two `exit( 1 )` paths. -/
def ctorOpen (cfg : BuildConfig) (G : Platform σ ω μ φ) (b : Backend) (title : String)
    (f : Frame σ ω) : Opened σ ω :=
  let f1 := f.call G .glfwSetErrorCallback
  let r := G.glfwInit f1.world
  let f2 : Frame σ ω := { f1 with world := r.2, calls := f1.calls ++ [.glfwInit] }
  if !r.1 then .exited 1 f2
  else
    let f3 := f2.callAll G (windowHints cfg)
    let c := G.glfwCreateWindow b.m_winPos.w b.m_winPos.h title f3.world
    let f4 : Frame σ ω :=
      { statics := { f3.statics with s_window := c.1 }
        world := c.2
        calls := f3.calls ++ [.glfwCreateWindow b.m_winPos.w b.m_winPos.h title] }
    match c.1 with
    | none => .exited 1 f4
    | some win => .window win f4

/-- Lines 57-64 of the constructor: position, optional maximize, GL context, vsync, and
registration of the refresh handler. -/
def ctorPlace (cfg : BuildConfig) (G : Platform σ ω μ φ) (b : Backend) (win : ω)
    (f : Frame σ ω) : Frame σ ω :=
  let f1 := f.call G (.glfwSetWindowPos win b.m_winPos.x b.m_winPos.y)
  let f2 := if cfg.GLFW_MAXIMIZED && b.m_winPos.maximize
    then f1.call G (.glfwMaximizeWindow win) else f1
  let f3 := f2.call G (.glfwMakeContextCurrent (some win))
  let f4 := f3.call G (.glfwSwapInterval 1)
  f4.call G (.glfwSetWindowRefreshCallback win)

/-- Lines 66-67 of the constructor: the GUI-library and graphics bridges. -/
def ctorBridge (G : Platform σ ω μ φ) (win : ω) (f : Frame σ ω) : Frame σ ω :=
  let f1 := f.call G (.ImGui_ImplGlfw_InitForOpenGL win true)
  f1.call G (.ImGui_ImplOpenGL3_Init "#version 150")

/-- Lines 69-70 of the constructor: the two collaborators are stored in the statics. -/
def ctorStore (redraw : σ → σ) (mainThreadTasks : σ → σ) (f : Frame σ ω) : Frame σ ω :=
  { f with statics :=
      { f.statics with s_redraw := some redraw, s_mainThreadTasks := some mainThreadTasks } }

/-- How the constructor ends: the process was terminated by `exit( status )`, or the
constructor returned. -/
inductive Constructed (σ ω : Type)
  | exited (status : Int) (f : Frame σ ω)
  | returned (f : Frame σ ω)

/-- The constructor `Backend::Backend( title, redraw, mainThreadTasks )`, lines 39-71. -/
def Backend.ctor (cfg : BuildConfig) (G : Platform σ ω μ φ) (b : Backend) (title : String)
    (redraw : σ → σ) (mainThreadTasks : σ → σ) (f : Frame σ ω) : Constructed σ ω :=
  match ctorOpen cfg G b title f with
  | .exited status f1 => .exited status f1
  | .window win f1 =>
    .returned (ctorStore redraw mainThreadTasks (ctorBridge G win (ctorPlace cfg G b win f1)))

/-- What calling a `std::function` can raise. -/
inductive Fault
  | bad_function_call
  deriving DecidableEq, Repr

/-- The handler registered at line 64: `[]( GLFWwindow* ) { s_redraw(); }`.  It reads the
callback slot when the notification arrives; calling an empty `std::function` throws
`std::bad_function_call`. -/
def refreshCallback (st : Statics σ ω) (s : σ) : Except Fault (σ × List (Call ω)) :=
  match st.s_redraw with
  | none => .error .bad_function_call
  | some redraw => .ok (redraw s, [.s_redraw])

/-! ## Backend::~Backend (lines 73-92) -/

/-- The destructor `Backend::~Backend()`.  Returns the data members (with the persisted
geometry), the outside world and the calls made. -/
def Backend.dtor (cfg : BuildConfig) (G : Platform σ ω μ φ) (L : Live σ ω) (b : Backend)
    (s : σ) : Backend × σ × List (Call ω) :=
  let maximized : Bool :=
    if cfg.GLFW_MAXIMIZED then G.glfwGetWindowAttrib L.s_window .GLFW_MAXIMIZED s else false
  let p0 : σ × List (Call ω) := (s, [])
  let p1 := if cfg.GLFW_MAXIMIZED && maximized
    then perform G (.glfwRestoreWindow L.s_window) p0 else p0
  let b1 : Backend := { b with m_winPos := { b.m_winPos with maximize := maximized } }
  let pos := G.glfwGetWindowPos L.s_window p1.1
  let b2 : Backend := { b1 with m_winPos := { b1.m_winPos with x := pos.1, y := pos.2 } }
  let size := G.glfwGetWindowSize L.s_window p1.1
  let b3 : Backend := { b2 with m_winPos := { b2.m_winPos with w := size.1, h := size.2 } }
  let p2 := perform G .ImGui_ImplOpenGL3_Shutdown p1
  let p3 := perform G .ImGui_ImplGlfw_Shutdown p2
  let p4 := perform G (.glfwDestroyWindow L.s_window) p3
  let p5 := perform G .glfwTerminate p4
  (b3, p5.1, p5.2)

/-! ## Backend::NewFrame and Backend::EndFrame (lines 118-150) -/

/-- The method `Backend::NewFrame( int& w, int& h )`.  The first component is the pair
written through the two reference parameters. -/
def Backend.NewFrame (G : Platform σ ω μ φ) (L : Live σ ω) (b : Backend) (s : σ) :
    (Int × Int) × Backend × σ × List (Call ω) :=
  let wh := G.glfwGetFramebufferSize L.s_window s
  let b1 : Backend := { b with m_w := wh.1 }
  let b2 : Backend := { b1 with m_h := wh.2 }
  let p1 := perform G .ImGui_ImplOpenGL3_NewFrame (s, [])
  let p2 := perform G .ImGui_ImplGlfw_NewFrame p1
  (wh, b2, p2.1, p2.2)

/-- The method `Backend::EndFrame()`.  The clear colour is `ImColor( 114, 144, 154 )`, whose
alpha defaults to 255; the call is recorded with these four components. -/
def Backend.EndFrame (G : Platform σ ω μ φ) (L : Live σ ω) (b : Backend) (s : σ) :
    Backend × σ × List (Call ω) :=
  let p1 := perform G .ImGui_Render (s, [])
  let p2 := perform G (.glViewport 0 0 b.m_w b.m_h) p1
  let p3 := perform G (.glClearColor 114 144 154 255) p2
  let p4 := perform G (.glClear GL_COLOR_BUFFER_BIT) p3
  let p5 := perform G .ImGui_ImplOpenGL3_RenderDrawData p4
  let p6 :=
    if G.viewportsEnable p5.1 then
      let backup_current_context := G.glfwGetCurrentContext p5.1
      let q1 := perform G .ImGui_UpdatePlatformWindows p5
      let q2 := perform G .ImGui_RenderPlatformWindowsDefault q1
      perform G (.glfwMakeContextCurrent backup_current_context) q2
    else p5
  let p7 := perform G (.glfwSwapBuffers L.s_window) p6
  (b, p7.1, p7.2)

/-! ## Backend::GetDpiScale (lines 166-179) -/

/-- The condition of the `#if` at line 168. -/
def hasContentScale (cfg : BuildConfig) : Bool :=
  cfg.GLFW_VERSION_MAJOR > 3 || (cfg.GLFW_VERSION_MAJOR == 3 && cfg.GLFW_VERSION_MINOR >= 3)

/-- The method `Backend::GetDpiScale()`.  Returns the scale, and with it the data members, the
outside world and the (empty) list of effectful calls. -/
def Backend.GetDpiScale [One φ] (cfg : BuildConfig) (G : Platform σ ω μ φ) (L : Live σ ω)
    (b : Backend) (s : σ) : φ × Backend × σ × List (Call ω) :=
  if hasContentScale cfg then
    let monitor := G.glfwGetWindowMonitor L.s_window s
    let monitor := match monitor with
      | none => G.glfwGetPrimaryMonitor s
      | some m => some m
    match monitor with
    | some m =>
      let xy := G.glfwGetMonitorContentScale m s
      (xy.1, b, s, [])
    | none => (1, b, s, [])
  else (1, b, s, [])

/-! ## Vocabulary of the statements

The definitions below are not code of the file: they name program points, call lists and
runs of calls that the theorems speak about. -/

/-- State at the `n`-th arrival at the loop head of `Run` started in `s`, should the loop get
that far. -/
def headState (G : Platform σ ω μ φ) (L : Live σ ω) : Nat → σ → σ
  | 0, s => s
  | n + 1, s => headState G L n (iteration G L s).1

/-- Calls made by the first `n` iterations of the loop of `Run` started in `s`. -/
def callsUpTo (G : Platform σ ω μ φ) (L : Live σ ω) : Nat → σ → List (Call ω)
  | 0, _ => []
  | n + 1, s => (iteration G L s).2 ++ callsUpTo G L n (iteration G L s).1

/-- The close flag as read at the `n`-th arrival at the loop head. -/
def closeAt (G : Platform σ ω μ φ) (L : Live σ ω) (n : Nat) (s : σ) : Bool :=
  G.glfwWindowShouldClose L.s_window (headState G L n s)

/-- A run of `n` calls of `EndFrame` with no `NewFrame` among them; before each call the
outside world may change in any way (`between k` before the call that has `k` more calls
after it).  Returns the data members and the world at the end, and the calls of each
`EndFrame` in turn. -/
def endFrames (G : Platform σ ω μ φ) (L : Live σ ω) (between : Nat → σ → σ) :
    Nat → Backend → σ → Backend × σ × List (List (Call ω))
  | 0, b, s => (b, s, [])
  | n + 1, b, s =>
    let r := Backend.EndFrame G L b (between n s)
    let rest := endFrames G L between n r.1 r.2.1
    (rest.1, rest.2.1, r.2.2 :: rest.2.2)

/-- State of the constructor just before line 54, when `glfwInit` has succeeded. -/
def beforeCreate (cfg : BuildConfig) (G : Platform σ ω μ φ) (f : Frame σ ω) : Frame σ ω :=
  Frame.callAll G (windowHints cfg)
    ⟨f.statics, (G.glfwInit (G.exec .glfwSetErrorCallback f.world)).2,
      f.calls ++ [.glfwSetErrorCallback, .glfwInit]⟩

/-- All calls of a constructor that returns, lines 41-67, for the window `win`. -/
def ctorCalls (cfg : BuildConfig) (b : Backend) (title : String) (win : ω) : List (Call ω) :=
  [.glfwSetErrorCallback, .glfwInit] ++ windowHints cfg ++
    [.glfwCreateWindow b.m_winPos.w b.m_winPos.h title,
     .glfwSetWindowPos win b.m_winPos.x b.m_winPos.y] ++
    (if cfg.GLFW_MAXIMIZED && b.m_winPos.maximize then [.glfwMaximizeWindow win] else []) ++
    [.glfwMakeContextCurrent (some win), .glfwSwapInterval 1,
     .glfwSetWindowRefreshCallback win,
     .ImGui_ImplGlfw_InitForOpenGL win true, .ImGui_ImplOpenGL3_Init "#version 150"]

/-- The calls of one `EndFrame` for stored dimensions `(w, h)`: the fixed steps, with `extra`
standing for what the multi-viewport branch adds between submit and swap. -/
def endFrameCalls (win : ω) (w h : Int) (extra : List (Call ω)) : List (Call ω) :=
  [.ImGui_Render, .glViewport 0 0 w h, .glClearColor 114 144 154 255,
   .glClear GL_COLOR_BUFFER_BIT, .ImGui_ImplOpenGL3_RenderDrawData] ++ extra ++
  [.glfwSwapBuffers win]

/-- A platform that differs from `G` only in the content scales it reports. -/
def withContentScale (G : Platform σ ω μ φ) (scale : μ → σ → φ × φ) : Platform σ ω μ φ :=
  { G with glfwGetMonitorContentScale := scale }

/-! ## A simulated window system -/

/-- Position and size of a window. -/
structure Rect where
  x : Int
  y : Int
  w : Int
  h : Int
  deriving DecidableEq, Repr

/-- A monitor of the simulated window system, with its content scale. -/
structure Monitor where
  xscale : ℚ
  yscale : ℚ
  deriving DecidableEq

/-- What one event poll of the simulated window system delivers: the new window flags and
a number of refresh notifications. -/
structure Poll where
  iconified : Bool
  focused : Bool
  close : Bool
  refreshes : Nat
  deriving DecidableEq, Repr

/-- Modelled from the spec: GLFW is an external library, not part of the sources.  This is
the window model the spec describes: a single window with a rectangle and a maximize flag,
where maximize remembers the current rectangle and restore reinstates it; iconified, focused
and close flags that change when events are polled; a framebuffer size; monitors with a content
scale.  The counters record what the test collaborators and the sleeps did. -/
structure Desk where
  initOk : Bool
  createOk : Bool
  workArea : Rect
  spawn : Int × Int
  rect : Rect
  maximized : Bool
  restored : Rect
  iconified : Bool
  focused : Bool
  shouldClose : Bool
  framebuffer : Int × Int
  monitor : Option Monitor
  primary : Option Monitor
  viewports : Bool
  pending : List Poll
  frames : Nat
  tasksRun : Nat
  slept : Nat
  deriving DecidableEq

/-- Effect of the library calls on the simulated window system. -/
def Desk.exec (c : Call Unit) (d : Desk) : Desk :=
  match c with
  | .glfwSetWindowPos _ x y => { d with rect := { d.rect with x := x, y := y } }
  | .glfwMaximizeWindow _ =>
    if d.maximized then d
    else { d with restored := d.rect, rect := d.workArea, maximized := true }
  | .glfwRestoreWindow _ =>
    if d.maximized then { d with rect := d.restored, maximized := false } else d
  | .glfwPollEvents =>
    match d.pending with
    | [] => d
    | p :: rest =>
      { d with iconified := p.iconified, focused := p.focused,
               shouldClose := d.shouldClose || p.close, pending := rest }
  | .sleep_for ms => { d with slept := d.slept + ms }
  | _ => d

/-- Window creation in the simulated window system: it fails for a non-positive size, and
otherwise gives a normal (not maximized) window of the requested size at a position chosen by
the window system. -/
def Desk.createWindow (w h : Int) (_title : String) (d : Desk) : Option Unit × Desk :=
  if d.createOk && decide (0 < w) && decide (0 < h) then
    (some (), { d with rect := ⟨d.spawn.1, d.spawn.2, w, h⟩, maximized := false,
                       iconified := false, shouldClose := false, framebuffer := (w, h) })
  else (none, d)

/-- The simulated window system as a platform. -/
def desk : Platform Desk Unit Monitor ℚ where
  glfwInit := fun d => (d.initOk, d)
  glfwCreateWindow := Desk.createWindow
  exec := Desk.exec
  refreshNotifications := fun d =>
    match d.pending with
    | [] => 0
    | p :: _ => p.refreshes
  resumeEvents := fun d => d
  glfwWindowShouldClose := fun _ d => d.shouldClose
  glfwGetWindowAttrib := fun _ a d =>
    match a with
    | .GLFW_MAXIMIZED => d.maximized
    | .GLFW_ICONIFIED => d.iconified
    | .GLFW_FOCUSED => d.focused
  glfwGetWindowPos := fun _ d => (d.rect.x, d.rect.y)
  glfwGetWindowSize := fun _ d => (d.rect.w, d.rect.h)
  glfwGetFramebufferSize := fun _ d => d.framebuffer
  glfwGetWindowMonitor := fun _ d => d.monitor
  glfwGetPrimaryMonitor := fun d => d.primary
  glfwGetMonitorContentScale := fun m _ => (m.xscale, m.yscale)
  glfwGetCurrentContext := fun _ => some ()
  viewportsEnable := fun d => d.viewports

/-- A test redraw callback: counts the frames it drew. -/
def countFrame (d : Desk) : Desk := { d with frames := d.frames + 1 }

/-- A test task queue: counts how often it was drained. -/
def countDrain (d : Desk) : Desk := { d with tasksRun := d.tasksRun + 1 }

/-- The statics of a Backend built on the simulated window system with the test
collaborators. -/
def deskLive : Live Desk Unit := ⟨(), countFrame, countDrain⟩

/-- A simulated window system at rest: library and window creation will succeed, a 1920x1080
work area, nothing pending. -/
def desk0 : Desk where
  initOk := true
  createOk := true
  workArea := ⟨0, 0, 1920, 1080⟩
  spawn := (50, 50)
  rect := ⟨0, 0, 0, 0⟩
  maximized := false
  restored := ⟨0, 0, 0, 0⟩
  iconified := false
  focused := true
  shouldClose := false
  framebuffer := (0, 0)
  monitor := none
  primary := none
  viewports := false
  pending := []
  frames := 0
  tasksRun := 0
  slept := 0

/-- A build against GLFW 3.3 on X11. -/
def cfg33 : BuildConfig := ⟨false, false, true, 3, 3⟩

/-- A build against GLFW 3.2, whose header has `GLFW_MAXIMIZED` but not yet the content
scale query. -/
def cfg32 : BuildConfig := ⟨false, false, true, 3, 2⟩

/-! ## Inputs on the simulated window system -/

/-- A simulated window system in which the window is open and the next poll reports it
iconified. -/
def deskIconified : Desk := { desk0 with pending := [⟨true, false, false, 0⟩] }

/-- A simulated window system in which the window is open and the next poll delivers one
refresh notification and reports the window iconified. -/
def deskIconifiedRefresh : Desk := { desk0 with pending := [⟨true, false, false, 1⟩] }

/-- A simulated window system in which the window is open and the next poll reports it
active and focused. -/
def deskFocused : Desk := { desk0 with pending := [⟨false, true, false, 0⟩] }

/-- A simulated window system in which the window is open and the next poll delivers one
refresh notification and reports the window active and focused. -/
def deskFocusedRefresh : Desk := { desk0 with pending := [⟨false, true, false, 1⟩] }

/-- A simulated window system in which the window is open and the next poll reports it
active and without focus. -/
def deskUnfocused : Desk := { desk0 with pending := [⟨false, false, false, 0⟩] }

/-- A simulated window system in which the window is open and the next poll delivers one
refresh notification and reports the window active and without focus. -/
def deskUnfocusedRefresh : Desk := { desk0 with pending := [⟨false, false, false, 1⟩] }

/-- A simulated window system whose first poll finds a focused window, whose second poll
finds it unfocused and delivers the close request. -/
def deskSession : Desk :=
  { desk0 with pending := [⟨false, true, false, 0⟩, ⟨false, false, true, 0⟩] }

/-- A simulated window system holding a maximized window: it fills the work area and
remembers the rectangle (100, 100, 800, 600) it had before. -/
def deskMaximized : Desk :=
  { desk0 with rect := ⟨0, 0, 1920, 1080⟩, maximized := true, restored := ⟨100, 100, 800, 600⟩ }

/-- A persisted geometry with the maximize flag set. -/
def geometryMaximized : WindowPosition := ⟨100, 100, 800, 600, true⟩

/-! ## Lemmas: the loop of Run -/

theorem Run_closed (G : Platform σ ω μ φ) (L : Live σ ω) (fuel : Nat) (s : σ)
    (h : G.glfwWindowShouldClose L.s_window s = true) :
    Backend.Run G L (fuel + 1) s = some (s, []) := by
  simp [Backend.Run, h]

theorem Run_open (G : Platform σ ω μ φ) (L : Live σ ω) (fuel : Nat) (s : σ)
    (h : G.glfwWindowShouldClose L.s_window s = false) :
    Backend.Run G L (fuel + 1) s =
      (Backend.Run G L fuel (iteration G L s).1).map
        (fun out => (out.1, (iteration G L s).2 ++ out.2)) := by
  simp [Backend.Run, h]

/-- Characterisation of the fuelled loop: it returns exactly when the close flag reads true at
some loop head within the fuel, and then at the first such head. -/
theorem Run_eq_some_iff (G : Platform σ ω μ φ) (L : Live σ ω) :
    ∀ (fuel : Nat) (s : σ) (r : σ × List (Call ω)),
      Backend.Run G L fuel s = some r ↔
        ∃ n, n < fuel ∧ closeAt G L n s = true ∧ (∀ k, k < n → closeAt G L k s = false) ∧
          r = (headState G L n s, callsUpTo G L n s) := by
  intro fuel
  induction fuel with
  | zero => intro s r; simp [Backend.Run]
  | succ fuel ih =>
    intro s r
    cases hc : G.glfwWindowShouldClose L.s_window s with
    | true =>
      rw [Run_closed G L fuel s hc]
      constructor
      · intro h
        refine ⟨0, Nat.succ_pos _, by simpa [closeAt, headState] using hc, ?_, ?_⟩
        · intro k hk; omega
        · simpa [headState, callsUpTo] using (Option.some.inj h).symm
      · rintro ⟨n, _, hn, hfirst, hr⟩
        cases n with
        | zero => simp [hr, headState, callsUpTo]
        | succ n =>
          have h0 := hfirst 0 (Nat.succ_pos _)
          simp [closeAt, headState, hc] at h0
    | false =>
      rw [Run_open G L fuel s hc]
      constructor
      · intro h
        rcases hrun : Backend.Run G L fuel (iteration G L s).1 with _ | out
        · simp [hrun] at h
        · rw [hrun] at h
          obtain ⟨n, hn, hcl, hfirst, hout⟩ := (ih _ out).1 hrun
          refine ⟨n + 1, Nat.succ_lt_succ hn, by simpa [closeAt, headState] using hcl, ?_, ?_⟩
          · intro k hk
            cases k with
            | zero => simpa [closeAt, headState] using hc
            | succ k =>
              have := hfirst k (by omega)
              simpa [closeAt, headState] using this
          · have hr := (Option.some.inj h).symm
            simp only [Option.map_some'] at h
            rw [hr, hout]
            simp [headState, callsUpTo]
      · rintro ⟨n, hn, hcl, hfirst, hr⟩
        cases n with
        | zero => simp [closeAt, headState, hc] at hcl
        | succ n =>
          have hrun : Backend.Run G L fuel (iteration G L s).1 =
              some (headState G L n (iteration G L s).1, callsUpTo G L n (iteration G L s).1) := by
            refine (ih _ _).2 ⟨n, by omega, by simpa [closeAt, headState] using hcl, ?_, rfl⟩
            intro k hk
            have := hfirst (k + 1) (by omega)
            simpa [closeAt, headState] using this
          rw [hrun, hr]
          simp [headState, callsUpTo]

/-- As soon as the close flag reads true at some loop head, there is a first such loop
head. -/
theorem exists_first_close (G : Platform σ ω μ φ) (L : Live σ ω) (s : σ)
    (h : ∃ n, closeAt G L n s = true) :
    ∃ n, closeAt G L n s = true ∧ ∀ k, k < n → closeAt G L k s = false := by
  classical
  refine ⟨Nat.find h, Nat.find_spec h, ?_⟩
  intro k hk
  have := Nat.find_min h hk
  simpa using this

theorem deliver_calls (G : Platform σ ω μ φ) (L : Live σ ω) :
    ∀ (n : Nat) (p : σ × List (Call ω)),
      (deliver G L n p).2 = p.2 ++ List.replicate n .s_redraw := by
  intro n
  induction n with
  | zero => intro p; simp [deliver]
  | succ n ih =>
    intro p
    simp only [deliver, ih, Live.refreshCallback, invoke, List.replicate_succ,
      List.append_assoc, List.singleton_append]

theorem pollEvents_calls (G : Platform σ ω μ φ) (L : Live σ ω) (s : σ) :
    (pollEvents G L (s, [])).2 =
      .glfwPollEvents :: List.replicate (G.refreshNotifications s) .s_redraw := by
  simp [pollEvents, deliver_calls, perform]

theorem pollEvents_quiet (G : Platform σ ω μ φ) (L : Live σ ω) (s : σ)
    (h : G.refreshNotifications s = 0) :
    pollEvents G L (s, []) = (G.exec .glfwPollEvents s, [.glfwPollEvents]) := by
  simp [pollEvents, h, deliver, perform]

/-! ## Lemmas: constructor, frame protocol -/

theorem callAll_eq (G : Platform σ ω μ φ) (cs : List (Call ω)) :
    ∀ f : Frame σ ω, (f.callAll G cs).statics = f.statics ∧
      (f.callAll G cs).calls = f.calls ++ cs := by
  induction cs with
  | nil => intro f; simp [Frame.callAll]
  | cons c cs ih =>
    intro f
    have h := ih (f.call G c)
    simp only [Frame.callAll, List.foldl_cons] at h ⊢
    refine ⟨h.1, ?_⟩
    rw [h.2]
    simp [Frame.call]

theorem ctorOpen_init_fails (cfg : BuildConfig) (G : Platform σ ω μ φ) (b : Backend)
    (title : String) (f : Frame σ ω)
    (h : (G.glfwInit (G.exec .glfwSetErrorCallback f.world)).1 = false) :
    ctorOpen cfg G b title f =
      .exited 1 ⟨f.statics, (G.glfwInit (G.exec .glfwSetErrorCallback f.world)).2,
        f.calls ++ [.glfwSetErrorCallback, .glfwInit]⟩ := by
  simp [ctorOpen, Frame.call, h]

theorem beforeCreate_eq (cfg : BuildConfig) (G : Platform σ ω μ φ) (f : Frame σ ω) :
    (beforeCreate cfg G f).statics = f.statics ∧
      (beforeCreate cfg G f).calls =
        f.calls ++ [.glfwSetErrorCallback, .glfwInit] ++ windowHints cfg := by
  have h := callAll_eq G (windowHints cfg)
    ⟨f.statics, (G.glfwInit (G.exec .glfwSetErrorCallback f.world)).2,
      f.calls ++ [.glfwSetErrorCallback, .glfwInit]⟩
  exact ⟨h.1, h.2⟩

theorem ctorOpen_init_ok (cfg : BuildConfig) (G : Platform σ ω μ φ) (b : Backend)
    (title : String) (f : Frame σ ω)
    (h : (G.glfwInit (G.exec .glfwSetErrorCallback f.world)).1 = true) :
    ctorOpen cfg G b title f =
      match (G.glfwCreateWindow b.m_winPos.w b.m_winPos.h title
          (beforeCreate cfg G f).world).1 with
      | none => .exited 1
          ⟨{ f.statics with s_window := none },
            (G.glfwCreateWindow b.m_winPos.w b.m_winPos.h title
              (beforeCreate cfg G f).world).2,
            f.calls ++ [.glfwSetErrorCallback, .glfwInit] ++ windowHints cfg ++
              [.glfwCreateWindow b.m_winPos.w b.m_winPos.h title]⟩
      | some win => .window win
          ⟨{ f.statics with s_window := some win },
            (G.glfwCreateWindow b.m_winPos.w b.m_winPos.h title
              (beforeCreate cfg G f).world).2,
            f.calls ++ [.glfwSetErrorCallback, .glfwInit] ++ windowHints cfg ++
              [.glfwCreateWindow b.m_winPos.w b.m_winPos.h title]⟩ := by
  have hb := beforeCreate_eq cfg G f
  unfold beforeCreate at hb
  simp only [ctorOpen, Frame.call, h, Bool.not_true, Bool.false_eq_true, if_false,
    List.append_assoc, List.singleton_append, beforeCreate] at hb ⊢
  split <;> rename_i hc <;> simp [hc, hb.1, hb.2]

theorem ctorPlace_eq (cfg : BuildConfig) (G : Platform σ ω μ φ) (b : Backend) (win : ω)
    (f : Frame σ ω) :
    (ctorPlace cfg G b win f).statics = f.statics ∧
      (ctorPlace cfg G b win f).calls =
        f.calls ++ [.glfwSetWindowPos win b.m_winPos.x b.m_winPos.y] ++
          (if cfg.GLFW_MAXIMIZED && b.m_winPos.maximize then [.glfwMaximizeWindow win] else []) ++
          [.glfwMakeContextCurrent (some win), .glfwSwapInterval 1,
           .glfwSetWindowRefreshCallback win] := by
  cases h : (cfg.GLFW_MAXIMIZED && b.m_winPos.maximize) <;>
    simp [ctorPlace, Frame.call, h]

theorem ctorBridge_eq (G : Platform σ ω μ φ) (win : ω) (f : Frame σ ω) :
    (ctorBridge G win f).statics = f.statics ∧
      (ctorBridge G win f).calls =
        f.calls ++ [.ImGui_ImplGlfw_InitForOpenGL win true,
          .ImGui_ImplOpenGL3_Init "#version 150"] := by
  simp [ctorBridge, Frame.call]

theorem ctorOpen_window (cfg : BuildConfig) (G : Platform σ ω μ φ) (b : Backend)
    (title : String) (f f1 : Frame σ ω) (win : ω)
    (h : ctorOpen cfg G b title f = .window win f1) :
    (G.glfwInit (G.exec .glfwSetErrorCallback f.world)).1 = true ∧
      (G.glfwCreateWindow b.m_winPos.w b.m_winPos.h title (beforeCreate cfg G f).world).1
        = some win ∧
      f1 = ⟨{ f.statics with s_window := some win },
            (G.glfwCreateWindow b.m_winPos.w b.m_winPos.h title
              (beforeCreate cfg G f).world).2,
            f.calls ++ [.glfwSetErrorCallback, .glfwInit] ++ windowHints cfg ++
              [.glfwCreateWindow b.m_winPos.w b.m_winPos.h title]⟩ := by
  cases hinit : (G.glfwInit (G.exec .glfwSetErrorCallback f.world)).1 with
  | false =>
    rw [ctorOpen_init_fails cfg G b title f hinit] at h
    cases h
  | true =>
    rw [ctorOpen_init_ok cfg G b title f hinit] at h
    cases hc : (G.glfwCreateWindow b.m_winPos.w b.m_winPos.h title
        (beforeCreate cfg G f).world).1 with
    | none =>
      rw [hc] at h
      cases h
    | some w =>
      rw [hc] at h
      simp only [Opened.window.injEq] at h
      obtain ⟨hw, hf⟩ := h
      subst hw
      exact ⟨rfl, rfl, hf.symm⟩

theorem desk_beforeCreate_world (cfg : BuildConfig) (f : Frame Desk Unit) :
    (beforeCreate cfg desk f).world = f.world := by
  cases hw : cfg.DISPLAY_SERVER_WAYLAND <;> cases ha : cfg.APPLE <;>
    simp [beforeCreate, windowHints, Frame.callAll, Frame.call, desk, Desk.exec, hw, ha]

theorem EndFrame_eq (G : Platform σ ω μ φ) (L : Live σ ω) (b : Backend) (s : σ) :
    (Backend.EndFrame G L b s).1 = b ∧
      ((Backend.EndFrame G L b s).2.2 = endFrameCalls L.s_window b.m_w b.m_h [] ∨
        ∃ ctx, (Backend.EndFrame G L b s).2.2 =
          endFrameCalls L.s_window b.m_w b.m_h
            [.ImGui_UpdatePlatformWindows, .ImGui_RenderPlatformWindowsDefault,
             .glfwMakeContextCurrent ctx]) := by
  refine ⟨rfl, ?_⟩
  cases hv : G.viewportsEnable
      (G.exec .ImGui_ImplOpenGL3_RenderDrawData
        (G.exec (.glClear GL_COLOR_BUFFER_BIT)
          (G.exec (.glClearColor 114 144 154 255)
            (G.exec (.glViewport 0 0 b.m_w b.m_h) (G.exec .ImGui_Render s))))) with
  | false =>
    left
    simp [Backend.EndFrame, perform, endFrameCalls, hv]
  | true =>
    right
    refine ⟨G.glfwGetCurrentContext
      (G.exec .ImGui_ImplOpenGL3_RenderDrawData
        (G.exec (.glClear GL_COLOR_BUFFER_BIT)
          (G.exec (.glClearColor 114 144 154 255)
            (G.exec (.glViewport 0 0 b.m_w b.m_h) (G.exec .ImGui_Render s))))), ?_⟩
    simp [Backend.EndFrame, perform, endFrameCalls, hv]

theorem endFrames_eq (G : Platform σ ω μ φ) (L : Live σ ω) (between : Nat → σ → σ) :
    ∀ (n : Nat) (b : Backend) (s : σ),
      (endFrames G L between n b s).1 = b ∧
        (endFrames G L between n b s).2.2.length = n ∧
        ∀ calls ∈ (endFrames G L between n b s).2.2,
          calls = endFrameCalls L.s_window b.m_w b.m_h [] ∨
            ∃ ctx, calls = endFrameCalls L.s_window b.m_w b.m_h
              [.ImGui_UpdatePlatformWindows, .ImGui_RenderPlatformWindowsDefault,
               .glfwMakeContextCurrent ctx] := by
  intro n
  induction n with
  | zero => intro b s; simp [endFrames]
  | succ n ih =>
    intro b s
    have he := EndFrame_eq G L b (between n s)
    have hrest := ih (Backend.EndFrame G L b (between n s)).1
      (Backend.EndFrame G L b (between n s)).2.1
    rw [he.1] at hrest
    simp only [endFrames]
    refine ⟨?_, ?_, ?_⟩
    · rw [he.1]; exact hrest.1
    · rw [he.1]; simp [hrest.2.1]
    · intro calls hmem
      rw [he.1] at hmem
      rcases List.mem_cons.1 hmem with h | h
      · rw [h]; exact he.2
      · exact hrest.2.2 calls h

/-- The destructor on any platform.  In a build with `GLFW_MAXIMIZED` and with the window
reported maximized, position and size are read in the state the restore left and the flag read
before the restore is persisted; otherwise they are read in the state the destructor found and
the persisted flag is false. -/
theorem dtor_eq (cfg : BuildConfig) (G : Platform σ ω μ φ) (L : Live σ ω) (b : Backend)
    (s : σ) :
    ((cfg.GLFW_MAXIMIZED && G.glfwGetWindowAttrib L.s_window .GLFW_MAXIMIZED s) = true →
        (Backend.dtor cfg G L b s).1 =
          { b with m_winPos :=
              ⟨(G.glfwGetWindowPos L.s_window (G.exec (.glfwRestoreWindow L.s_window) s)).1,
               (G.glfwGetWindowPos L.s_window (G.exec (.glfwRestoreWindow L.s_window) s)).2,
               (G.glfwGetWindowSize L.s_window (G.exec (.glfwRestoreWindow L.s_window) s)).1,
               (G.glfwGetWindowSize L.s_window (G.exec (.glfwRestoreWindow L.s_window) s)).2,
               true⟩ } ∧
        (Backend.dtor cfg G L b s).2.2 =
          [.glfwRestoreWindow L.s_window, .ImGui_ImplOpenGL3_Shutdown, .ImGui_ImplGlfw_Shutdown,
           .glfwDestroyWindow L.s_window, .glfwTerminate]) ∧
      ((cfg.GLFW_MAXIMIZED && G.glfwGetWindowAttrib L.s_window .GLFW_MAXIMIZED s) = false →
        (Backend.dtor cfg G L b s).1 =
          { b with m_winPos :=
              ⟨(G.glfwGetWindowPos L.s_window s).1, (G.glfwGetWindowPos L.s_window s).2,
               (G.glfwGetWindowSize L.s_window s).1, (G.glfwGetWindowSize L.s_window s).2,
               false⟩ } ∧
        (Backend.dtor cfg G L b s).2.2 =
          [.ImGui_ImplOpenGL3_Shutdown, .ImGui_ImplGlfw_Shutdown,
           .glfwDestroyWindow L.s_window, .glfwTerminate]) := by
  constructor
  · intro h
    have hc : cfg.GLFW_MAXIMIZED = true := by
      cases hcfg : cfg.GLFW_MAXIMIZED
      · simp [hcfg] at h
      · rfl
    have hm : G.glfwGetWindowAttrib L.s_window .GLFW_MAXIMIZED s = true := by
      simpa [hc] using h
    simp [Backend.dtor, perform, hc, hm]
  · intro h
    cases hcfg : cfg.GLFW_MAXIMIZED
    · simp [Backend.dtor, perform, hcfg]
    · have hm : G.glfwGetWindowAttrib L.s_window .GLFW_MAXIMIZED s = false := by
        simpa [hcfg] using h
      simp [Backend.dtor, perform, hcfg, hm]

/-! ## Properties of Backend::Run -/

/-- C1, amended: in an iteration of `Backend::Run` that finds the window iconified after
polling, the loop body does not invoke the redraw callback and the task queue is not
drained; the callback runs only from the refresh handler, once for each refresh notification
delivered during the poll.  The calls of the iteration are exactly poll, one redraw per
notification, sleep 50 ms (exactly poll, sleep 50 ms when no notification is delivered), and
the loop goes on at the close-flag check in the state the sleep left. -/
theorem C1_iconified_iteration [DecidableEq ω] (G : Platform σ ω μ φ) (L : Live σ ω) (s : σ)
    (fuel : Nat)
    (hopen : G.glfwWindowShouldClose L.s_window s = false)
    (hicon : G.glfwGetWindowAttrib L.s_window .GLFW_ICONIFIED (pollEvents G L (s, [])).1
      = true) :
    iteration G L s =
        (G.exec (.sleep_for 50) (pollEvents G L (s, [])).1,
          .glfwPollEvents ::
            (List.replicate (G.refreshNotifications s) .s_redraw ++ [.sleep_for 50])) ∧
      (iteration G L s).2.count .s_redraw = G.refreshNotifications s ∧
      Call.RunQueue_Run ∉ (iteration G L s).2 ∧
      (G.refreshNotifications s = 0 →
        iteration G L s =
          (G.exec (.sleep_for 50) (G.exec .glfwPollEvents s),
            [.glfwPollEvents, .sleep_for 50])) ∧
      Backend.Run G L (fuel + 1) s =
        (Backend.Run G L fuel (G.exec (.sleep_for 50) (pollEvents G L (s, [])).1)).map
          (fun out =>
            (out.1, .glfwPollEvents ::
              (List.replicate (G.refreshNotifications s) .s_redraw ++ [.sleep_for 50])
                ++ out.2)) := by
  have hit : iteration G L s =
      (G.exec (.sleep_for 50) (pollEvents G L (s, [])).1,
        .glfwPollEvents ::
          (List.replicate (G.refreshNotifications s) .s_redraw ++ [.sleep_for 50])) := by
    simp [iteration, perform, hicon, pollEvents_calls]
  refine ⟨hit, ?_, ?_, ?_, ?_⟩
  · simp [hit, List.count_cons, List.count_append, List.count_replicate_self]
  · simp [hit, List.mem_replicate]
  · intro hquiet
    rw [hit, pollEvents_quiet G L s hquiet, hquiet]
    rfl
  · rw [Run_open G L fuel s hopen, hit]

/-- C1, amended, at a concrete input: an open window that the next poll reports iconified,
with no refresh notification. -/
theorem C1_iconified_iteration_witness :
    iteration desk deskLive deskIconified =
        (desk.exec (.sleep_for 50) (desk.exec .glfwPollEvents deskIconified),
          [.glfwPollEvents, .sleep_for 50]) ∧
      (iteration desk deskLive deskIconified).1.frames = 0 ∧
      (iteration desk deskLive deskIconified).1.tasksRun = 0 ∧
      (iteration desk deskLive deskIconified).1.slept = 50 :=
  ⟨(C1_iconified_iteration desk deskLive deskIconified 0 rfl rfl).2.2.2.1 rfl, rfl, rfl, rfl⟩

/-- C1 as stated fails: the poll of an iteration delivers one refresh notification and
reports the window iconified; the handler of line 64 runs the redraw callback inside the
poll, so the callback is invoked in this iteration and the calls are poll, redraw, sleep
50 ms. -/
theorem C1_counterexample :
    desk.glfwWindowShouldClose () deskIconifiedRefresh = false ∧
      desk.glfwGetWindowAttrib () .GLFW_ICONIFIED
        (pollEvents desk deskLive (deskIconifiedRefresh, [])).1 = true ∧
      (iteration desk deskLive deskIconifiedRefresh).2 =
        [.glfwPollEvents, .s_redraw, .sleep_for 50] ∧
      (iteration desk deskLive deskIconifiedRefresh).1.frames = 1 ∧
      (iteration desk deskLive deskIconifiedRefresh).2 ≠ [.glfwPollEvents, .sleep_for 50] := by
  decide

/-- C2, amended: in an iteration of `Backend::Run` that finds the window not iconified after
polling and focused after the redraw, the loop body invokes the redraw callback exactly once,
after the poll has returned, then drains the task queue exactly once, and does not sleep;
besides, the refresh handler runs the callback once for each refresh notification delivered
during the poll.  The calls of the iteration are exactly poll, one redraw per notification,
redraw, drain (exactly poll, redraw, drain when no notification is delivered). -/
theorem C2_focused_iteration [DecidableEq ω] (G : Platform σ ω μ φ) (L : Live σ ω) (s : σ)
    (fuel : Nat)
    (hopen : G.glfwWindowShouldClose L.s_window s = false)
    (hicon : G.glfwGetWindowAttrib L.s_window .GLFW_ICONIFIED (pollEvents G L (s, [])).1
      = false)
    (hfocus : G.glfwGetWindowAttrib L.s_window .GLFW_FOCUSED
      (L.s_redraw (pollEvents G L (s, [])).1) = true) :
    iteration G L s =
        (L.s_mainThreadTasks (L.s_redraw (pollEvents G L (s, [])).1),
          .glfwPollEvents ::
            (List.replicate (G.refreshNotifications s) .s_redraw ++
              [.s_redraw, .RunQueue_Run])) ∧
      (iteration G L s).2 = (pollEvents G L (s, [])).2 ++ [.s_redraw, .RunQueue_Run] ∧
      (iteration G L s).2.count .s_redraw = G.refreshNotifications s + 1 ∧
      (iteration G L s).2.count .RunQueue_Run = 1 ∧
      (∀ ms, Call.sleep_for ms ∉ (iteration G L s).2) ∧
      (G.refreshNotifications s = 0 →
        iteration G L s =
          (L.s_mainThreadTasks (L.s_redraw (G.exec .glfwPollEvents s)),
            [.glfwPollEvents, .s_redraw, .RunQueue_Run])) ∧
      Backend.Run G L (fuel + 1) s =
        (Backend.Run G L fuel
            (L.s_mainThreadTasks (L.s_redraw (pollEvents G L (s, [])).1))).map
          (fun out =>
            (out.1, .glfwPollEvents ::
              (List.replicate (G.refreshNotifications s) .s_redraw ++
                [.s_redraw, .RunQueue_Run]) ++ out.2)) := by
  have hit : iteration G L s =
      (L.s_mainThreadTasks (L.s_redraw (pollEvents G L (s, [])).1),
        .glfwPollEvents ::
          (List.replicate (G.refreshNotifications s) .s_redraw ++
            [.s_redraw, .RunQueue_Run])) := by
    simp [iteration, perform, invoke, hicon, hfocus, pollEvents_calls]
  refine ⟨hit, ?_, ?_, ?_, ?_, ?_, ?_⟩
  · simp [hit, pollEvents_calls]
  · simp [hit, List.count_cons, List.count_append, List.count_replicate_self]
  · simp [hit, List.count_cons, List.count_append, List.count_replicate]
  · simp [hit, List.mem_replicate]
  · intro hquiet
    rw [hit, pollEvents_quiet G L s hquiet, hquiet]
    rfl
  · rw [Run_open G L fuel s hopen, hit]

/-- C2, amended, at a concrete input: an open window that the next poll reports active and
focused, with no refresh notification. -/
theorem C2_focused_iteration_witness :
    iteration desk deskLive deskFocused =
        (countDrain (countFrame (desk.exec .glfwPollEvents deskFocused)),
          [.glfwPollEvents, .s_redraw, .RunQueue_Run]) ∧
      (iteration desk deskLive deskFocused).1.frames = 1 ∧
      (iteration desk deskLive deskFocused).1.tasksRun = 1 ∧
      (iteration desk deskLive deskFocused).1.slept = 0 :=
  ⟨(C2_focused_iteration desk deskLive deskFocused 0 rfl rfl rfl).2.2.2.2.2.1 rfl,
    rfl, rfl, rfl⟩

/-- C2 as stated fails: the poll of an iteration delivers one refresh notification and
reports the window active and focused; the redraw callback runs twice in this iteration, once
from the handler of line 64 inside the poll and once at line 109, and the calls are poll,
redraw, redraw, drain. -/
theorem C2_counterexample :
    desk.glfwWindowShouldClose () deskFocusedRefresh = false ∧
      desk.glfwGetWindowAttrib () .GLFW_ICONIFIED
        (pollEvents desk deskLive (deskFocusedRefresh, [])).1 = false ∧
      desk.glfwGetWindowAttrib () .GLFW_FOCUSED
        (countFrame (pollEvents desk deskLive (deskFocusedRefresh, [])).1) = true ∧
      (iteration desk deskLive deskFocusedRefresh).2 =
        [.glfwPollEvents, .s_redraw, .s_redraw, .RunQueue_Run] ∧
      (iteration desk deskLive deskFocusedRefresh).2.count .s_redraw = 2 ∧
      (iteration desk deskLive deskFocusedRefresh).1.frames = 2 ∧
      (iteration desk deskLive deskFocusedRefresh).2 ≠
        [.glfwPollEvents, .s_redraw, .RunQueue_Run] := by
  decide

/-- C3, amended: in an iteration of `Backend::Run` that finds the window not iconified after
polling and without focus once the redraw callback has returned, the loop body invokes the
redraw callback exactly once, after the poll has returned, then sleeps 50 ms, then drains the
task queue exactly once; besides, the refresh handler runs the callback once for each refresh
notification delivered during the poll.  The calls of the iteration are exactly poll, one
redraw per notification, redraw, sleep 50 ms, drain (exactly poll, redraw, sleep 50 ms, drain
when no notification is delivered). -/
theorem C3_unfocused_iteration [DecidableEq ω] (G : Platform σ ω μ φ) (L : Live σ ω) (s : σ)
    (fuel : Nat)
    (hopen : G.glfwWindowShouldClose L.s_window s = false)
    (hicon : G.glfwGetWindowAttrib L.s_window .GLFW_ICONIFIED (pollEvents G L (s, [])).1
      = false)
    (hfocus : G.glfwGetWindowAttrib L.s_window .GLFW_FOCUSED
      (L.s_redraw (pollEvents G L (s, [])).1) = false) :
    iteration G L s =
        (L.s_mainThreadTasks
            (G.exec (.sleep_for 50) (L.s_redraw (pollEvents G L (s, [])).1)),
          .glfwPollEvents ::
            (List.replicate (G.refreshNotifications s) .s_redraw ++
              [.s_redraw, .sleep_for 50, .RunQueue_Run])) ∧
      (iteration G L s).2 =
        (pollEvents G L (s, [])).2 ++ [.s_redraw, .sleep_for 50, .RunQueue_Run] ∧
      (iteration G L s).2.count .s_redraw = G.refreshNotifications s + 1 ∧
      (iteration G L s).2.count .RunQueue_Run = 1 ∧
      (iteration G L s).2.count (.sleep_for 50) = 1 ∧
      (G.refreshNotifications s = 0 →
        iteration G L s =
          (L.s_mainThreadTasks
              (G.exec (.sleep_for 50) (L.s_redraw (G.exec .glfwPollEvents s))),
            [.glfwPollEvents, .s_redraw, .sleep_for 50, .RunQueue_Run])) ∧
      Backend.Run G L (fuel + 1) s =
        (Backend.Run G L fuel
            (L.s_mainThreadTasks
              (G.exec (.sleep_for 50) (L.s_redraw (pollEvents G L (s, [])).1)))).map
          (fun out =>
            (out.1, .glfwPollEvents ::
              (List.replicate (G.refreshNotifications s) .s_redraw ++
                [.s_redraw, .sleep_for 50, .RunQueue_Run]) ++ out.2)) := by
  have hit : iteration G L s =
      (L.s_mainThreadTasks
          (G.exec (.sleep_for 50) (L.s_redraw (pollEvents G L (s, [])).1)),
        .glfwPollEvents ::
          (List.replicate (G.refreshNotifications s) .s_redraw ++
            [.s_redraw, .sleep_for 50, .RunQueue_Run])) := by
    simp [iteration, perform, invoke, hicon, hfocus, pollEvents_calls]
  refine ⟨hit, ?_, ?_, ?_, ?_, ?_, ?_⟩
  · simp [hit, pollEvents_calls]
  · simp [hit, List.count_cons, List.count_append, List.count_replicate_self]
  · simp [hit, List.count_cons, List.count_append, List.count_replicate]
  · simp [hit, List.count_cons, List.count_append, List.count_replicate]
  · intro hquiet
    rw [hit, pollEvents_quiet G L s hquiet, hquiet]
    rfl
  · rw [Run_open G L fuel s hopen, hit]

/-- C3, amended, at a concrete input: an open window that the next poll reports active and
without focus, with no refresh notification. -/
theorem C3_unfocused_iteration_witness :
    iteration desk deskLive deskUnfocused =
        (countDrain (desk.exec (.sleep_for 50)
            (countFrame (desk.exec .glfwPollEvents deskUnfocused))),
          [.glfwPollEvents, .s_redraw, .sleep_for 50, .RunQueue_Run]) ∧
      (iteration desk deskLive deskUnfocused).1.frames = 1 ∧
      (iteration desk deskLive deskUnfocused).1.tasksRun = 1 ∧
      (iteration desk deskLive deskUnfocused).1.slept = 50 :=
  ⟨(C3_unfocused_iteration desk deskLive deskUnfocused 0 rfl rfl rfl).2.2.2.2.2.1 rfl,
    rfl, rfl, rfl⟩

/-- C3 as stated fails: the poll of an iteration delivers one refresh notification and
reports the window active and without focus; the redraw callback runs twice in this
iteration, once from the handler of line 64 inside the poll and once at line 109, and the
calls are poll, redraw, redraw, sleep 50 ms, drain. -/
theorem C3_counterexample :
    desk.glfwWindowShouldClose () deskUnfocusedRefresh = false ∧
      desk.glfwGetWindowAttrib () .GLFW_ICONIFIED
        (pollEvents desk deskLive (deskUnfocusedRefresh, [])).1 = false ∧
      desk.glfwGetWindowAttrib () .GLFW_FOCUSED
        (countFrame (pollEvents desk deskLive (deskUnfocusedRefresh, [])).1) = false ∧
      (iteration desk deskLive deskUnfocusedRefresh).2 =
        [.glfwPollEvents, .s_redraw, .s_redraw, .sleep_for 50, .RunQueue_Run] ∧
      (iteration desk deskLive deskUnfocusedRefresh).2.count .s_redraw = 2 ∧
      (iteration desk deskLive deskUnfocusedRefresh).1.frames = 2 ∧
      (iteration desk deskLive deskUnfocusedRefresh).2 ≠
        [.glfwPollEvents, .s_redraw, .sleep_for 50, .RunQueue_Run] := by
  decide

/-- C4: `Backend::Run` returns if and only if the close flag reads true at some loop head.
With enough fuel it returns at the first loop head where the flag is set, in the state of
that loop head and with the calls of the iterations before it and nothing more; it starts an
iteration exactly when the flag reads false at the loop head; if the flag is never set it
returns for no amount of fuel; if the flag is set on entry it returns at once having made no
call. -/
theorem C4_run_returns_iff_close (G : Platform σ ω μ φ) (L : Live σ ω) (s : σ) :
    (∀ fuel r, Backend.Run G L fuel s = some r ↔
        ∃ n, n < fuel ∧ closeAt G L n s = true ∧ (∀ k, k < n → closeAt G L k s = false) ∧
          r = (headState G L n s, callsUpTo G L n s)) ∧
      ((∃ fuel r, Backend.Run G L fuel s = some r) ↔ ∃ n, closeAt G L n s = true) ∧
      ((∀ n, closeAt G L n s = false) → ∀ fuel, Backend.Run G L fuel s = none) ∧
      (G.glfwWindowShouldClose L.s_window s = true →
        ∀ fuel, Backend.Run G L (fuel + 1) s = some (s, [])) ∧
      (G.glfwWindowShouldClose L.s_window s = false →
        ∀ fuel, Backend.Run G L (fuel + 1) s =
          (Backend.Run G L fuel (iteration G L s).1).map
            (fun out => (out.1, (iteration G L s).2 ++ out.2))) := by
  refine ⟨fun fuel r => Run_eq_some_iff G L fuel s r, ?_, ?_, ?_, ?_⟩
  · constructor
    · rintro ⟨fuel, r, hr⟩
      obtain ⟨n, _, hn, _, _⟩ := (Run_eq_some_iff G L fuel s r).1 hr
      exact ⟨n, hn⟩
    · intro h
      obtain ⟨n, hn, hfirst⟩ := exists_first_close G L s h
      exact ⟨n + 1, _, (Run_eq_some_iff G L (n + 1) s _).2 ⟨n, Nat.lt_succ_self n, hn, hfirst, rfl⟩⟩
  · intro hnever fuel
    cases hrun : Backend.Run G L fuel s with
    | none => rfl
    | some r =>
      obtain ⟨n, _, hn, _, _⟩ := (Run_eq_some_iff G L fuel s r).1 hrun
      rw [hnever n] at hn
      exact absurd hn (by decide)
  · intro hc fuel
    exact Run_closed G L fuel s hc
  · intro hc fuel
    exact Run_open G L fuel s hc

/-- C4 at a concrete input: the close request arrives with the second poll, so `Run` makes
two iterations and returns at the third loop head. -/
theorem C4_run_returns_iff_close_witness :
    Backend.Run desk deskLive 3 deskSession =
      some (headState desk deskLive 2 deskSession,
        [.glfwPollEvents, .s_redraw, .RunQueue_Run,
         .glfwPollEvents, .s_redraw, .sleep_for 50, .RunQueue_Run]) :=
  ((C4_run_returns_iff_close desk deskLive deskSession).1 3 _).2
    ⟨2, by decide, rfl, by
      intro k hk
      interval_cases k <;> rfl, rfl⟩

/-! ## Properties of destruction, construction and persisted geometry -/

/-- C5: with `GLFW_MAXIMIZED` defined, as it is in every header the file compiles against,
destroying a Backend whose window is maximized with rectangle R and restored rectangle R0
issues the restore before position and size are read, and persists maximize = true (the flag
read before the restore) with the rectangle R0, not R; destroying one whose window is not
maximized issues no restore and persists maximize = false with the live rectangle. -/
theorem C5_destructor_geometry (cfg : BuildConfig) (L : Live Desk Unit) (b : Backend)
    (d : Desk) (hcfg : cfg.GLFW_MAXIMIZED = true) :
    (d.maximized = true →
        (Backend.dtor cfg desk L b d).1.m_winPos =
          ⟨d.restored.x, d.restored.y, d.restored.w, d.restored.h, true⟩ ∧
        (Backend.dtor cfg desk L b d).2.2 =
          [.glfwRestoreWindow L.s_window, .ImGui_ImplOpenGL3_Shutdown, .ImGui_ImplGlfw_Shutdown,
           .glfwDestroyWindow L.s_window, .glfwTerminate] ∧
        (d.rect ≠ d.restored →
          (Backend.dtor cfg desk L b d).1.m_winPos ≠
            ⟨d.rect.x, d.rect.y, d.rect.w, d.rect.h, true⟩)) ∧
      (d.maximized = false →
        (Backend.dtor cfg desk L b d).1.m_winPos =
          ⟨d.rect.x, d.rect.y, d.rect.w, d.rect.h, false⟩ ∧
        (Backend.dtor cfg desk L b d).2.2 =
          [.ImGui_ImplOpenGL3_Shutdown, .ImGui_ImplGlfw_Shutdown,
           .glfwDestroyWindow L.s_window, .glfwTerminate]) := by
  have hgen := dtor_eq cfg desk L b d
  have hattr : desk.glfwGetWindowAttrib L.s_window .GLFW_MAXIMIZED d = d.maximized := rfl
  rw [hattr] at hgen
  refine ⟨?_, ?_⟩
  · intro hmax
    obtain ⟨hb, hcalls⟩ := hgen.1 (by simp [hcfg, hmax])
    have hx : (Backend.dtor cfg desk L b d).1.m_winPos =
        ⟨d.restored.x, d.restored.y, d.restored.w, d.restored.h, true⟩ := by
      rw [hb]
      simp [desk, Desk.exec, hmax]
    refine ⟨hx, hcalls, ?_⟩
    intro hne heq
    apply hne
    rw [hx] at heq
    cases hr : d.rect
    cases hr0 : d.restored
    rw [hr, hr0] at heq
    simp at heq
    simp [heq]
  · intro hmax
    obtain ⟨hb, hcalls⟩ := hgen.2 (by simp [hmax])
    refine ⟨?_, hcalls⟩
    rw [hb]
    simp [desk]

/-- C5 at a concrete input: a window maximized over the work area (0, 0, 1920, 1080) with
restored rectangle (100, 100, 800, 600). -/
theorem C5_destructor_geometry_witness :
    (Backend.dtor cfg33 desk deskLive ⟨⟨0, 0, 1, 1, false⟩, 0, 0⟩ deskMaximized).1.m_winPos =
        ⟨100, 100, 800, 600, true⟩ ∧
      (Backend.dtor cfg33 desk deskLive ⟨⟨0, 0, 1, 1, false⟩, 0, 0⟩ deskMaximized).1.m_winPos ≠
        ⟨0, 0, 1920, 1080, true⟩ :=
  ⟨((C5_destructor_geometry cfg33 deskLive ⟨⟨0, 0, 1, 1, false⟩, 0, 0⟩ deskMaximized rfl).1
      rfl).1,
   ((C5_destructor_geometry cfg33 deskLive ⟨⟨0, 0, 1, 1, false⟩, 0, 0⟩ deskMaximized rfl).1
      rfl).2.2 (by decide)⟩

/-- C6: with `GLFW_MAXIMIZED` defined, as it is in every header the file compiles against,
on the simulated window system (maximize remembers the current rectangle, restore reinstates
it) constructing a Backend from a geometry g of positive size and destroying it with no event
in between persists exactly g.  The constructor creates the window with size (w, h), sets its
position to (x, y), and calls maximize exactly when g.maximize is set. -/
theorem C6_geometry_round_trip (cfg : BuildConfig) (g : WindowPosition) (m_w m_h : Int)
    (title : String) (redraw mainThreadTasks : Desk → Desk) (st : Statics Desk Unit)
    (d : Desk) (hcfg : cfg.GLFW_MAXIMIZED = true)
    (hinit : d.initOk = true) (hcreate : d.createOk = true)
    (hw : 0 < g.w) (hh : 0 < g.h) :
    ∃ f, Backend.ctor cfg desk ⟨g, m_w, m_h⟩ title redraw mainThreadTasks ⟨st, d, []⟩
          = .returned f ∧
      f.statics.s_window = some () ∧
      f.statics.s_redraw = some redraw ∧
      f.statics.s_mainThreadTasks = some mainThreadTasks ∧
      f.calls = ctorCalls cfg ⟨g, m_w, m_h⟩ title () ∧
      Call.glfwCreateWindow g.w g.h title ∈ f.calls ∧
      Call.glfwSetWindowPos () g.x g.y ∈ f.calls ∧
      (Call.glfwMaximizeWindow () ∈ f.calls ↔ g.maximize = true) ∧
      (Backend.dtor cfg desk ⟨(), redraw, mainThreadTasks⟩ ⟨g, m_w, m_h⟩ f.world).1.m_winPos
        = g := by
  have hi : (desk.glfwInit (desk.exec .glfwSetErrorCallback d)).1 = true := by
    simpa [desk, Desk.exec] using hinit
  have hworld := desk_beforeCreate_world cfg ⟨st, d, []⟩
  have hopen := ctorOpen_init_ok cfg desk ⟨g, m_w, m_h⟩ title ⟨st, d, []⟩ hi
  rw [hworld] at hopen
  have hc : desk.glfwCreateWindow g.w g.h title d =
      (some (), { d with rect := ⟨d.spawn.1, d.spawn.2, g.w, g.h⟩, maximized := false,
                         iconified := false, shouldClose := false,
                         framebuffer := (g.w, g.h) }) := by
    simp [desk, Desk.createWindow, hcreate, hw, hh]
  simp only [hc] at hopen
  have hpersist : ∀ f : Frame Desk Unit,
      f.world = { d with rect := ⟨d.spawn.1, d.spawn.2, g.w, g.h⟩, maximized := false,
                         iconified := false, shouldClose := false,
                         framebuffer := (g.w, g.h) } →
      (Backend.dtor cfg desk ⟨(), redraw, mainThreadTasks⟩ ⟨g, m_w, m_h⟩
          (ctorStore redraw mainThreadTasks
            (ctorBridge desk () (ctorPlace cfg desk ⟨g, m_w, m_h⟩ () f))).world).1.m_winPos
        = g := by
    intro f hf
    cases g with
    | mk x y w h maximize =>
      cases maximize <;>
        simp [Backend.dtor, perform, ctorStore, ctorBridge, ctorPlace, Frame.call, desk,
          Desk.exec, hf, hcfg]
  obtain ⟨f1, hf1, hw1, hs1, hc1⟩ : ∃ f1 : Frame Desk Unit,
      ctorOpen cfg desk ⟨g, m_w, m_h⟩ title ⟨st, d, []⟩ = .window () f1 ∧
      f1.world = { d with rect := ⟨d.spawn.1, d.spawn.2, g.w, g.h⟩, maximized := false,
                          iconified := false, shouldClose := false,
                          framebuffer := (g.w, g.h) } ∧
      f1.statics.s_window = some () ∧
      f1.calls = [.glfwSetErrorCallback, .glfwInit] ++ windowHints cfg ++
        [.glfwCreateWindow g.w g.h title] := ⟨_, hopen, rfl, rfl, by simp⟩
  have hret : Backend.ctor cfg desk ⟨g, m_w, m_h⟩ title redraw mainThreadTasks ⟨st, d, []⟩ =
      .returned (ctorStore redraw mainThreadTasks
        (ctorBridge desk () (ctorPlace cfg desk ⟨g, m_w, m_h⟩ () f1))) := by
    simp only [Backend.ctor, hf1]
  have hcalls : (ctorStore redraw mainThreadTasks
      (ctorBridge desk () (ctorPlace cfg desk ⟨g, m_w, m_h⟩ () f1))).calls =
      ctorCalls cfg ⟨g, m_w, m_h⟩ title () := by
    simp [ctorStore, (ctorBridge_eq desk () _).2, (ctorPlace_eq cfg desk _ () _).2, hc1,
      ctorCalls]
  refine ⟨_, hret, ?_, ?_, ?_, hcalls, ?_, ?_, ?_, hpersist f1 hw1⟩
  · simp [ctorStore, (ctorBridge_eq desk () _).1, (ctorPlace_eq cfg desk _ () _).1, hs1]
  · simp [ctorStore]
  · simp [ctorStore]
  · rw [hcalls]; simp [ctorCalls]
  · rw [hcalls]; simp [ctorCalls]
  · rw [hcalls]
    cases hw : cfg.DISPLAY_SERVER_WAYLAND <;> cases ha : cfg.APPLE <;>
      cases hm : g.maximize <;> simp [ctorCalls, windowHints, hcfg, hw, ha, hm]

/-- C6 at a concrete input: the geometry (100, 100, 800, 600, maximized) round-trips. -/
theorem C6_geometry_round_trip_witness :
    ∃ f, Backend.ctor cfg33 desk ⟨geometryMaximized, 0, 0⟩ "Tracy" countFrame countDrain
          ⟨Statics.initial, desk0, []⟩ = .returned f ∧
      (Backend.dtor cfg33 desk deskLive ⟨geometryMaximized, 0, 0⟩ f.world).1.m_winPos
        = geometryMaximized := by
  obtain ⟨f, hf, _, _, _, _, _, _, _, hg⟩ :=
    C6_geometry_round_trip cfg33 geometryMaximized 0 0 "Tracy" countFrame countDrain
      Statics.initial desk0 rfl rfl rfl (by decide) (by decide)
  exact ⟨f, hf, hg⟩

/-- C7, amended: the window system delivers refresh notifications only while events are
polled, which the constructor never does; once the constructor has returned, the handler is
registered, the callback slot holds the injected callback, and every refresh notification
makes the handler invoke the injected callback exactly once, without draining the task
queue: the calls of a poll in `Run` are the poll and one redraw per notification. -/
theorem C7_refresh_invokes_injected (cfg : BuildConfig) (G : Platform σ ω μ φ)
    (b : Backend) (title : String) (redraw mainThreadTasks : σ → σ) (f f1 : Frame σ ω)
    (hret : Backend.ctor cfg G b title redraw mainThreadTasks f = .returned f1) :
    ∃ win,
      f1.statics.s_window = some win ∧
      f1.calls = f.calls ++ ctorCalls cfg b title win ∧
      Call.glfwSetWindowRefreshCallback win ∈ ctorCalls cfg b title win ∧
      Call.glfwPollEvents ∉ ctorCalls cfg b title win ∧
      Call.s_redraw ∉ ctorCalls cfg b title win ∧
      f1.statics.s_redraw = some redraw ∧
      (∀ s, refreshCallback f1.statics s = .ok (redraw s, [.s_redraw])) ∧
      (∀ p, Live.refreshCallback ⟨win, redraw, mainThreadTasks⟩ p
        = (redraw p.1, p.2 ++ [.s_redraw])) ∧
      (∀ s, (pollEvents G ⟨win, redraw, mainThreadTasks⟩ (s, [])).2 =
        .glfwPollEvents :: List.replicate (G.refreshNotifications s) .s_redraw) ∧
      (∀ s, Call.RunQueue_Run ∉ (pollEvents G ⟨win, redraw, mainThreadTasks⟩ (s, [])).2) := by
  cases hopen : ctorOpen cfg G b title f with
  | exited status f2 =>
    simp only [Backend.ctor, hopen] at hret
    cases hret
  | window win f2 =>
    simp only [Backend.ctor, hopen, Constructed.returned.injEq] at hret
    obtain ⟨_, _, hf2⟩ := ctorOpen_window cfg G b title f f2 win hopen
    have hp := ctorPlace_eq cfg G b win f2
    have hb := ctorBridge_eq G win (ctorPlace cfg G b win f2)
    have hs2 : f2.statics.s_window = some win := by rw [hf2]
    have hc2 : f2.calls = f.calls ++ [.glfwSetErrorCallback, .glfwInit] ++ windowHints cfg ++
        [.glfwCreateWindow b.m_winPos.w b.m_winPos.h title] := by rw [hf2]
    refine ⟨win, ?_, ?_, ?_, ?_, ?_, ?_, ?_, ?_, ?_, ?_⟩
    · rw [← hret]
      simp [ctorStore, hb.1, hp.1, hs2]
    · rw [← hret]
      simp [ctorStore, hb.2, hp.2, hc2, ctorCalls]
    · simp [ctorCalls]
    · cases hw : cfg.DISPLAY_SERVER_WAYLAND <;> cases ha : cfg.APPLE <;>
        cases hm : (cfg.GLFW_MAXIMIZED && b.m_winPos.maximize) <;>
        simp [ctorCalls, windowHints, hw, ha, hm]
    · cases hw : cfg.DISPLAY_SERVER_WAYLAND <;> cases ha : cfg.APPLE <;>
        cases hm : (cfg.GLFW_MAXIMIZED && b.m_winPos.maximize) <;>
        simp [ctorCalls, windowHints, hw, ha, hm]
    · rw [← hret]
      simp [ctorStore]
    · intro s
      rw [← hret]
      simp [refreshCallback, ctorStore]
    · intro p
      rfl
    · intro s
      exact pollEvents_calls G _ s
    · intro s
      rw [pollEvents_calls]
      simp [List.mem_replicate]

/-- C7, amended, at a concrete input: a Backend built on the simulated window system; a
refresh notification after construction runs the injected callback once. -/
theorem C7_refresh_invokes_injected_witness :
    ∃ f1, Backend.ctor cfg33 desk ⟨geometryMaximized, 0, 0⟩ "Tracy" countFrame countDrain
          ⟨Statics.initial, desk0, []⟩ = .returned f1 ∧
      refreshCallback f1.statics desk0 = .ok (countFrame desk0, [.s_redraw]) := by
  obtain ⟨f1, hf1⟩ : ∃ f1, Backend.ctor cfg33 desk ⟨geometryMaximized, 0, 0⟩ "Tracy"
      countFrame countDrain ⟨Statics.initial, desk0, []⟩ = .returned f1 := ⟨_, rfl⟩
  obtain ⟨_, _, _, _, _, _, _, h, _⟩ :=
    C7_refresh_invokes_injected cfg33 desk ⟨geometryMaximized, 0, 0⟩ "Tracy" countFrame
      countDrain ⟨Statics.initial, desk0, []⟩ f1 hf1
  exact ⟨f1, hf1, h desk0⟩

/-- C7 as stated fails: in the construction of the first Backend of a process on the
simulated window system, at the program points after line 64 and after line 67 the refresh
handler is registered on the window while the callback slot is still empty, so the slot does
not hold the injected callback at every point at which the handler is registered. -/
theorem C7_counterexample :
    ∃ f1, ctorOpen cfg33 desk ⟨geometryMaximized, 0, 0⟩ "Tracy"
          ⟨Statics.initial, desk0, []⟩ = .window () f1 ∧
      Call.glfwSetWindowRefreshCallback () ∈
        (ctorPlace cfg33 desk ⟨geometryMaximized, 0, 0⟩ () f1).calls ∧
      (ctorPlace cfg33 desk ⟨geometryMaximized, 0, 0⟩ () f1).statics.s_redraw.isNone = true ∧
      Call.glfwSetWindowRefreshCallback () ∈
        (ctorBridge desk () (ctorPlace cfg33 desk ⟨geometryMaximized, 0, 0⟩ () f1)).calls ∧
      (ctorBridge desk ()
        (ctorPlace cfg33 desk ⟨geometryMaximized, 0, 0⟩ () f1)).statics.s_redraw.isNone = true :=
  ⟨_, rfl, by decide, rfl, by decide, rfl⟩

/-- C10: the constructor has no partial-construction path.  If `glfwInit` fails the process
exits with status 1 having called only `glfwSetErrorCallback` and `glfwInit`, the statics
untouched; if `glfwCreateWindow` fails the process exits with status 1 right after that call,
with no position set, no refresh handler registered, no bridge initialised, and the callback
and queue slots untouched; if both succeed the constructor returns with the three statics
set; and it returns if and only if both succeed. -/
theorem C10_constructor_outcomes (cfg : BuildConfig) (G : Platform σ ω μ φ) (b : Backend)
    (title : String) (redraw mainThreadTasks : σ → σ) (f : Frame σ ω) :
    ((G.glfwInit (G.exec .glfwSetErrorCallback f.world)).1 = false →
        Backend.ctor cfg G b title redraw mainThreadTasks f =
          .exited 1 ⟨f.statics, (G.glfwInit (G.exec .glfwSetErrorCallback f.world)).2,
            f.calls ++ [.glfwSetErrorCallback, .glfwInit]⟩) ∧
      ((G.glfwInit (G.exec .glfwSetErrorCallback f.world)).1 = true →
        (G.glfwCreateWindow b.m_winPos.w b.m_winPos.h title (beforeCreate cfg G f).world).1
          = none →
        Backend.ctor cfg G b title redraw mainThreadTasks f =
          .exited 1 ⟨{ f.statics with s_window := none },
            (G.glfwCreateWindow b.m_winPos.w b.m_winPos.h title
              (beforeCreate cfg G f).world).2,
            f.calls ++ [.glfwSetErrorCallback, .glfwInit] ++ windowHints cfg ++
              [.glfwCreateWindow b.m_winPos.w b.m_winPos.h title]⟩) ∧
      (∀ win, (G.glfwInit (G.exec .glfwSetErrorCallback f.world)).1 = true →
        (G.glfwCreateWindow b.m_winPos.w b.m_winPos.h title (beforeCreate cfg G f).world).1
          = some win →
        ∃ f1, Backend.ctor cfg G b title redraw mainThreadTasks f = .returned f1 ∧
          f1.statics.s_window = some win ∧
          f1.statics.s_redraw = some redraw ∧
          f1.statics.s_mainThreadTasks = some mainThreadTasks ∧
          f1.calls = f.calls ++ ctorCalls cfg b title win) ∧
      ((∃ f1, Backend.ctor cfg G b title redraw mainThreadTasks f = .returned f1) ↔
        ((G.glfwInit (G.exec .glfwSetErrorCallback f.world)).1 = true ∧
          (G.glfwCreateWindow b.m_winPos.w b.m_winPos.h title
            (beforeCreate cfg G f).world).1 ≠ none)) := by
  have hfail : (G.glfwInit (G.exec .glfwSetErrorCallback f.world)).1 = false →
      Backend.ctor cfg G b title redraw mainThreadTasks f =
        .exited 1 ⟨f.statics, (G.glfwInit (G.exec .glfwSetErrorCallback f.world)).2,
          f.calls ++ [.glfwSetErrorCallback, .glfwInit]⟩ := by
    intro h
    simp [Backend.ctor, ctorOpen_init_fails cfg G b title f h]
  have hnone : (G.glfwInit (G.exec .glfwSetErrorCallback f.world)).1 = true →
      (G.glfwCreateWindow b.m_winPos.w b.m_winPos.h title (beforeCreate cfg G f).world).1
        = none →
      Backend.ctor cfg G b title redraw mainThreadTasks f =
        .exited 1 ⟨{ f.statics with s_window := none },
          (G.glfwCreateWindow b.m_winPos.w b.m_winPos.h title
            (beforeCreate cfg G f).world).2,
          f.calls ++ [.glfwSetErrorCallback, .glfwInit] ++ windowHints cfg ++
            [.glfwCreateWindow b.m_winPos.w b.m_winPos.h title]⟩ := by
    intro h hc
    simp [Backend.ctor, ctorOpen_init_ok cfg G b title f h, hc]
  have hsome : ∀ win, (G.glfwInit (G.exec .glfwSetErrorCallback f.world)).1 = true →
      (G.glfwCreateWindow b.m_winPos.w b.m_winPos.h title (beforeCreate cfg G f).world).1
        = some win →
      ∃ f1, Backend.ctor cfg G b title redraw mainThreadTasks f = .returned f1 ∧
        f1.statics.s_window = some win ∧
        f1.statics.s_redraw = some redraw ∧
        f1.statics.s_mainThreadTasks = some mainThreadTasks ∧
        f1.calls = f.calls ++ ctorCalls cfg b title win := by
    intro win h hc
    have hret : Backend.ctor cfg G b title redraw mainThreadTasks f =
        .returned (ctorStore redraw mainThreadTasks (ctorBridge G win (ctorPlace cfg G b win
          ⟨{ f.statics with s_window := some win },
            (G.glfwCreateWindow b.m_winPos.w b.m_winPos.h title
              (beforeCreate cfg G f).world).2,
            f.calls ++ [.glfwSetErrorCallback, .glfwInit] ++ windowHints cfg ++
              [.glfwCreateWindow b.m_winPos.w b.m_winPos.h title]⟩))) := by
      simp only [Backend.ctor, ctorOpen_init_ok cfg G b title f h, hc]
    refine ⟨_, hret, ?_, ?_, ?_, ?_⟩
    · simp [ctorStore, (ctorBridge_eq G win _).1, (ctorPlace_eq cfg G b win _).1]
    · simp [ctorStore]
    · simp [ctorStore]
    · simp [ctorStore, (ctorBridge_eq G win _).2, (ctorPlace_eq cfg G b win _).2, ctorCalls]
  refine ⟨hfail, hnone, hsome, ?_⟩
  constructor
  · rintro ⟨f1, hf1⟩
    cases hinit : (G.glfwInit (G.exec .glfwSetErrorCallback f.world)).1 with
    | false =>
      rw [hfail hinit] at hf1
      cases hf1
    | true =>
      refine ⟨rfl, ?_⟩
      intro hc
      rw [hnone hinit hc] at hf1
      cases hf1
  · rintro ⟨hinit, hc⟩
    obtain ⟨win, hwin⟩ := Option.ne_none_iff_exists'.1 hc
    obtain ⟨f1, hf1, _⟩ := hsome win hinit hwin
    exact ⟨f1, hf1⟩

/-- C10 at a concrete input: on a simulated window system whose library initialisation
fails, the constructor exits with status 1 after two calls and creates no window. -/
theorem C10_constructor_outcomes_witness :
    Backend.ctor cfg33 desk ⟨geometryMaximized, 0, 0⟩ "Tracy" countFrame countDrain
        ⟨Statics.initial, { desk0 with initOk := false }, []⟩ =
      .exited 1 ⟨Statics.initial, { desk0 with initOk := false },
        [.glfwSetErrorCallback, .glfwInit]⟩ :=
  (C10_constructor_outcomes cfg33 desk ⟨geometryMaximized, 0, 0⟩ "Tracy" countFrame countDrain
    ⟨Statics.initial, { desk0 with initOk := false }, []⟩).1 rfl

/-! ## Properties of the accessors and of the frame protocol -/

/-- C8: `GetDpiScale` returns 1 when the build is against a GLFW older than 3.3, and when
the window has no monitor and there is no primary monitor; otherwise it returns the horizontal
content scale of the window's monitor if there is one, else of the primary monitor; the
vertical scale has no influence on the result; the data members and the outside world are left
as they were and no effectful call is made. -/
theorem C8_dpi_scale [One φ] (cfg : BuildConfig) (G : Platform σ ω μ φ) (L : Live σ ω)
    (b : Backend) (s : σ) :
    ((cfg.GLFW_VERSION_MAJOR < 3 ∨
          (cfg.GLFW_VERSION_MAJOR = 3 ∧ cfg.GLFW_VERSION_MINOR < 3)) →
        (Backend.GetDpiScale cfg G L b s).1 = 1) ∧
      (G.glfwGetWindowMonitor L.s_window s = none → G.glfwGetPrimaryMonitor s = none →
        (Backend.GetDpiScale cfg G L b s).1 = 1) ∧
      (¬ (cfg.GLFW_VERSION_MAJOR < 3 ∨
          (cfg.GLFW_VERSION_MAJOR = 3 ∧ cfg.GLFW_VERSION_MINOR < 3)) →
        (∀ m, G.glfwGetWindowMonitor L.s_window s = some m →
          (Backend.GetDpiScale cfg G L b s).1 = (G.glfwGetMonitorContentScale m s).1) ∧
        (∀ m, G.glfwGetWindowMonitor L.s_window s = none →
          G.glfwGetPrimaryMonitor s = some m →
          (Backend.GetDpiScale cfg G L b s).1 = (G.glfwGetMonitorContentScale m s).1)) ∧
      (∀ scale : μ → σ → φ × φ,
        (∀ m t, (scale m t).1 = (G.glfwGetMonitorContentScale m t).1) →
        Backend.GetDpiScale cfg (withContentScale G scale) L b s =
          Backend.GetDpiScale cfg G L b s) ∧
      (Backend.GetDpiScale cfg G L b s).2 = (b, s, []) := by
  have hver : (cfg.GLFW_VERSION_MAJOR < 3 ∨
      (cfg.GLFW_VERSION_MAJOR = 3 ∧ cfg.GLFW_VERSION_MINOR < 3)) ↔
      hasContentScale cfg = false := by
    simp only [hasContentScale, Bool.or_eq_false_iff, Bool.and_eq_false_iff, decide_eq_false_iff_not,
      beq_eq_false_iff_ne, ge_iff_le, gt_iff_lt]
    omega
  refine ⟨?_, ?_, ?_, ?_, ?_⟩
  · intro h
    simp [Backend.GetDpiScale, hver.1 h]
  · intro hm hp
    cases hcs : hasContentScale cfg <;> simp [Backend.GetDpiScale, hcs, hm, hp]
  · intro h
    have hcs : hasContentScale cfg = true := by
      cases hc : hasContentScale cfg
      · exact absurd (hver.2 hc) h
      · rfl
    constructor
    · intro m hm
      simp [Backend.GetDpiScale, hcs, hm]
    · intro m hm hp
      simp [Backend.GetDpiScale, hcs, hm, hp]
  · intro scale hscale
    cases hcs : hasContentScale cfg
    · simp [Backend.GetDpiScale, hcs]
    · cases hm : G.glfwGetWindowMonitor L.s_window s with
      | some m => simp [Backend.GetDpiScale, withContentScale, hcs, hm, hscale]
      | none =>
        cases hp : G.glfwGetPrimaryMonitor s with
        | some m => simp [Backend.GetDpiScale, withContentScale, hcs, hm, hp, hscale]
        | none => simp [Backend.GetDpiScale, withContentScale, hcs, hm, hp]
  · cases hcs : hasContentScale cfg
    · simp [Backend.GetDpiScale, hcs]
    · cases hm : G.glfwGetWindowMonitor L.s_window s with
      | some m => simp [Backend.GetDpiScale, hcs, hm]
      | none =>
        cases hp : G.glfwGetPrimaryMonitor s with
        | some m => simp [Backend.GetDpiScale, hcs, hm, hp]
        | none => simp [Backend.GetDpiScale, hcs, hm, hp]

/-- C8 at a concrete input: the window has no monitor of its own and the primary monitor has
content scale (2, 3); a build against GLFW 3.3 reports 2, a build against GLFW 3.2 reports
1. -/
theorem C8_dpi_scale_witness :
    (Backend.GetDpiScale cfg33 desk deskLive ⟨geometryMaximized, 0, 0⟩
        { desk0 with primary := some ⟨2, 3⟩ }).1 = 2 ∧
      (Backend.GetDpiScale cfg32 desk deskLive ⟨geometryMaximized, 0, 0⟩
        { desk0 with primary := some ⟨2, 3⟩ }).1 = 1 :=
  ⟨((C8_dpi_scale cfg33 desk deskLive ⟨geometryMaximized, 0, 0⟩
      { desk0 with primary := some ⟨2, 3⟩ }).2.2.1 (by decide)).2 ⟨2, 3⟩ rfl rfl,
   (C8_dpi_scale cfg32 desk deskLive ⟨geometryMaximized, 0, 0⟩
      { desk0 with primary := some ⟨2, 3⟩ }).1 (by decide)⟩

/-- C9: `NewFrame` returns through its out parameters exactly the framebuffer size the window
system reports and stores the same pair in `m_w`, `m_h`; each of any number of later
`EndFrame` calls, with the outside world changing at will in between and no `NewFrame` among
them, leaves the data members unchanged and makes its calls in the order render, viewport
(0, 0, w, h) with those dimensions, clear colour, clear, submit draw data, then at most the
multi-viewport calls, and the buffer swap last. -/
theorem C9_frame_dimensions (G : Platform σ ω μ φ) (L : Live σ ω) (b : Backend) (s : σ)
    (between : Nat → σ → σ) (n : Nat) :
    (Backend.NewFrame G L b s).1 = G.glfwGetFramebufferSize L.s_window s ∧
      (Backend.NewFrame G L b s).2.1 =
        { b with m_w := (G.glfwGetFramebufferSize L.s_window s).1,
                 m_h := (G.glfwGetFramebufferSize L.s_window s).2 } ∧
      (Backend.NewFrame G L b s).2.2.2 = [.ImGui_ImplOpenGL3_NewFrame, .ImGui_ImplGlfw_NewFrame] ∧
      (endFrames G L between n (Backend.NewFrame G L b s).2.1
          (Backend.NewFrame G L b s).2.2.1).1 = (Backend.NewFrame G L b s).2.1 ∧
      (endFrames G L between n (Backend.NewFrame G L b s).2.1
          (Backend.NewFrame G L b s).2.2.1).2.2.length = n ∧
      ∀ calls ∈ (endFrames G L between n (Backend.NewFrame G L b s).2.1
          (Backend.NewFrame G L b s).2.2.1).2.2,
        calls = endFrameCalls L.s_window (G.glfwGetFramebufferSize L.s_window s).1
            (G.glfwGetFramebufferSize L.s_window s).2 [] ∨
          ∃ ctx, calls = endFrameCalls L.s_window (G.glfwGetFramebufferSize L.s_window s).1
            (G.glfwGetFramebufferSize L.s_window s).2
            [.ImGui_UpdatePlatformWindows, .ImGui_RenderPlatformWindowsDefault,
             .glfwMakeContextCurrent ctx] := by
  have hnew : (Backend.NewFrame G L b s).2.1 =
      { b with m_w := (G.glfwGetFramebufferSize L.s_window s).1,
               m_h := (G.glfwGetFramebufferSize L.s_window s).2 } := rfl
  have hend := endFrames_eq G L between n (Backend.NewFrame G L b s).2.1
    (Backend.NewFrame G L b s).2.2.1
  refine ⟨rfl, hnew, ?_, hend.1, hend.2.1, ?_⟩
  · simp [Backend.NewFrame, perform]
  · intro calls hmem
    have h := hend.2.2 calls hmem
    rw [hnew] at h
    exact h

/-- C9 at a concrete input: a 1280x720 framebuffer, then two `EndFrame` calls. -/
theorem C9_frame_dimensions_witness :
    (Backend.NewFrame desk deskLive ⟨geometryMaximized, 0, 0⟩
        { desk0 with framebuffer := (1280, 720) }).1 = (1280, 720) ∧
      (endFrames desk deskLive (fun _ d => d) 2
        (Backend.NewFrame desk deskLive ⟨geometryMaximized, 0, 0⟩
          { desk0 with framebuffer := (1280, 720) }).2.1
        (Backend.NewFrame desk deskLive ⟨geometryMaximized, 0, 0⟩
          { desk0 with framebuffer := (1280, 720) }).2.2.1).2.2 =
        [endFrameCalls () 1280 720 [], endFrameCalls () 1280 720 []] :=
  ⟨(C9_frame_dimensions desk deskLive ⟨geometryMaximized, 0, 0⟩
      { desk0 with framebuffer := (1280, 720) } (fun _ d => d) 2).1, rfl⟩

end BackendGlfw
